import Mathlib

/-!
Verification of the CPD Database Gateway subsystem against its specification.

The definitions below are a shallow embedding, translated from the Python
sources under `src/`:

* `src/services/database_gateway.py` — error taxonomy, `map_mssql_error`,
  `map_sqlite_exception`, `DatabaseGateway._notify`;
* `src/services/db_adapters/mssql_adapter.py` — `MssqlAdapter._with_retry`,
  `MssqlAdapter.transaction`, `MssqlAdapter.query_all` / `query_one`;
* `src/services/db_adapters/sqlite_adapter.py` — `SqliteAdapter.execute`;
* `src/services/schema_validator.py` — `SchemaValidator.validate_schema`,
  `_compare_table_schema`, `_are_types_compatible`;
* `src/services/azure_ad_token_manager.py` — `AuthToken.is_expired`,
  `AzureADTokenManager.get_connection_string`;
* `src/services/background_runner.py` — `run_bg`.

Python exceptions are modelled with `Except`, wall-clock sleeps as recorded
millisecond amounts, and Python dicts as association lists.
-/

namespace CPD

/-- Boolean substring test on character lists: `pat` occurs contiguously in the
list. Used to embed the Python `in` operator on strings. -/
def charsContain (pat : List Char) : List Char → Bool
  | [] => pat.isEmpty
  | c :: tl => pat.isPrefixOf (c :: tl) || charsContain pat tl

/-- Embeds the Python expression `pat in s` (substring containment). -/
def strContains (s pat : String) : Bool :=
  charsContain pat.toList s.toList

/-- Embeds Python `s[:n]` (string truncation to at most `n` characters). -/
def strTake (s : String) (n : Nat) : String :=
  ⟨s.data.take n⟩

/-- Embeds Python `s.lower()` (characterwise, which agrees on the ASCII
patterns the error mappers match). -/
def strLower (s : String) : String :=
  ⟨s.data.map Char.toLower⟩

/-- The DatabaseError class hierarchy of `database_gateway.py`, flattened to
its nine leaf classes plus the `DatabaseError` base class itself. -/
inductive DbErrClass
  | base
  | transient
  | auth
  | permission
  | notFound
  | conflict
  | timeout
  | validation
  | programming
  | operational
deriving DecidableEq, Repr

/-- A classified database error: the raising class together with the message
text it carries (Python `str(err)`). -/
structure DbError where
  cls : DbErrClass
  msg : String
deriving DecidableEq, Repr

/-- The Python class name of each taxonomy member, as used for the
`error_class` field of observer events. -/
def className : DbErrClass → String
  | .base => "DatabaseError"
  | .transient => "TransientError"
  | .auth => "AuthError"
  | .permission => "PermissionError"
  | .notFound => "NotFoundError"
  | .conflict => "ConflictError"
  | .timeout => "TimeoutError"
  | .validation => "ValidationError"
  | .programming => "ProgrammingError"
  | .operational => "OperationalError"

/-- Embeds `_is_transient_mssql_code` from `database_gateway.py`. -/
def isTransientMssqlCode : Option Int → Bool
  | none => false
  | some c => c == 40501 || c == 40613 || c == 40197 || (decide (49918 ≤ c) && decide (c ≤ 49920))

/-- Embeds `map_mssql_error` from `database_gateway.py`: classify an MSSQL
driver failure from its message text, SQL Server error number and SQLSTATE. -/
def mapMssqlError (message : String) (code : Option Int) (sqlstate : Option String) : DbError :=
  let msg := message
  if sqlstate == some "28000" || strContains msg "FA004" || strContains msg "Login failed"
      || strContains msg "18456" then
    ⟨.auth, msg⟩
  else if strContains (strLower msg) "permission"
      || strContains (strLower msg) "is not authorized" then
    ⟨.permission, msg⟩
  else if strContains msg "Cannot open database" || strContains msg "does not exist" then
    ⟨.notFound, msg⟩
  else if isTransientMssqlCode code || strContains (strLower msg) "temporarily unavailable"
      || strContains (strLower msg) "service is busy" then
    ⟨.transient, msg⟩
  else if strContains (strLower msg) "timeout" || strContains (strLower msg) "timed out" then
    ⟨.timeout, msg⟩
  else
    ⟨.operational, msg⟩

/-! ### Remote (MSSQL) adapter transaction scopes

`MssqlAdapter.transaction` (mssql_adapter.py, lines 262-328) is a context
manager over mutable adapter state `_tx_depth` / `_tx_conn`.  The body of a
`with adapter.transaction():` block is embedded as a `TxBody`: straight-line
code that succeeds or raises, sequencing, and nested `transaction()` scopes.
Each scope carries flags saying which of its engine calls raise when reached.
-/

/-- Failure behaviour of the engine calls a single `transaction()` scope makes:
whether `_connect` raises (only reached at depth 0), whether the opening
cursor/`SAVE TRANSACTION` block raises, whether the rollback handling raises,
and whether `commit` raises (only reached at depth 1).  `rollbackRaises` does
not influence the adapter state: whether the rollback raises or not, the
`finally` block runs and an exception (the inner one or the rollback one)
propagates; the flag is kept to document that both paths are covered. -/
structure ScopeSpec where
  connectRaises : Bool
  startRaises : Bool
  rollbackRaises : Bool
  commitRaises : Bool
deriving DecidableEq, Repr

/-- Code run inside transaction scopes: plain code that returns or raises,
sequencing, and nested `transaction()` scopes of arbitrary depth. -/
inductive TxBody where
  | ok : TxBody
  | err : TxBody
  | seq : TxBody → TxBody → TxBody
  | scope : ScopeSpec → TxBody → TxBody
deriving DecidableEq, Repr

/-- The mutable state of `MssqlAdapter` relevant to `transaction()`:
`_tx_depth`, whether `_tx_conn` is set, and counters of how often the
dedicated connection has been opened (`_connect`) and closed (`close()`). -/
structure TxState where
  txDepth : Nat
  txConn : Bool
  opens : Nat
  closes : Nat
deriving DecidableEq, Repr

/-- Embeds the exit bookkeeping every path of `transaction()` runs:
decrement `_tx_depth`; if it reached 0 and `_tx_conn` is set, close the
connection and clear `_tx_conn`. -/
def txFinally (st : TxState) : TxState :=
  let st' : TxState := { st with txDepth := st.txDepth - 1 }
  if st'.txDepth == 0 && st'.txConn then
    { st' with txConn := false, closes := st'.closes + 1 }
  else st'

/-- Embeds running a transaction body against the adapter state.  Returns the
final state and whether an exception propagated out.  The `scope` case mirrors
`MssqlAdapter.transaction`: connect at depth 0, increment depth, run the
opening block (which may raise), run the body, then either the rollback path
(body raised) or the commit path, each followed by the `finally` bookkeeping. -/
def runBody : TxBody → TxState → TxState × Bool
  | .ok, st => (st, false)
  | .err, st => (st, true)
  | .seq a b, st =>
    match runBody a st with
    | (st', true) => (st', true)
    | (st', false) => runBody b st'
  | .scope spec body, st =>
    if st.txDepth == 0 && spec.connectRaises then
      (st, true)
    else
      let st1 := if st.txDepth == 0 then { st with txConn := true, opens := st.opens + 1 } else st
      let st2 : TxState := { st1 with txDepth := st1.txDepth + 1 }
      if spec.startRaises then
        (txFinally st2, true)
      else
        match runBody body st2 with
        | (st3, true) => (txFinally st3, true)
        | (st3, false) => (txFinally st3, st3.txDepth == 1 && spec.commitRaises)

/-! ### Retry helper and query operations of the remote adapter

`MssqlAdapter._with_retry` (mssql_adapter.py, lines 181-198) runs an operation
up to `attempts` times, sleeping with exponential backoff between attempts
that failed with an error classified `Transient`.  The operation is embedded
as a function from the attempt index to its outcome; a raw driver failure
carries the `(message, code, sqlstate)` triple that
`_extract_mssql_error_info` would produce.  Sleeps are recorded in
milliseconds instead of performed (0.5 s = 500 ms).
-/

/-- The `(message, code, sqlstate)` triple extracted from a raw pyodbc
exception by `_extract_mssql_error_info`. -/
structure RawDriverError where
  msg : String
  code : Option Int
  sqlstate : Option String
deriving DecidableEq, Repr

/-- Observable outcome of `_with_retry`: how many underlying attempts ran,
which backoff sleeps happened (in ms, in order), and the returned value or
the classified error finally raised. -/
structure RetryOutcome (α : Type) where
  attemptsMade : Nat
  sleeps : List Nat
  result : Except DbError α
deriving Repr

/-- Loop body of `_with_retry`.  `fuel` counts the remaining loop iterations
(initially `attempts`, so the `fuel = 0` fallback mirrors the
`raise DatabaseError("Unknown failure without exception")` line reached only
when `range(attempts)` is empty); `i` is the current attempt index and
`delay` the next backoff sleep in ms.  The Python guard `i < attempts - 1`
is written `i + 1 < attempts`, which is equivalent for `attempts ≥ 1`. -/
def withRetryGo (f : Nat → Except RawDriverError α) (attempts : Nat) :
    Nat → Nat → Nat → List Nat → RetryOutcome α
  | 0, i, _, sleeps => ⟨i, sleeps.reverse, .error ⟨.base, "Unknown failure without exception"⟩⟩
  | fuel + 1, i, delay, sleeps =>
    match f i with
    | .ok v => ⟨i + 1, sleeps.reverse, .ok v⟩
    | .error exc =>
      let derr := mapMssqlError exc.msg exc.code exc.sqlstate
      if derr.cls == DbErrClass.transient && decide (i + 1 < attempts) then
        withRetryGo f attempts fuel (i + 1) (delay * 2) (delay :: sleeps)
      else
        ⟨i + 1, sleeps.reverse, .error derr⟩

/-- Embeds `MssqlAdapter._with_retry` with its default of 3 attempts and an
initial backoff of 0.5 s (500 ms). -/
def withRetry (f : Nat → Except RawDriverError α) (attempts : Nat := 3) : RetryOutcome α :=
  withRetryGo f attempts attempts 0 500 []

/-- Embeds `MssqlAdapter.query_all`: the per-attempt fetch runs under
`_with_retry` with the default 3 attempts.  A row is left abstract. -/
def queryAll (f : Nat → Except RawDriverError (List ρ)) : RetryOutcome (List ρ) :=
  withRetry f 3

/-- Embeds `MssqlAdapter.query_one` (mssql_adapter.py, lines 258-260): call
`query_all` on the same arguments and return its first row, or `none` when
the row list is empty; a raised error propagates unchanged, as do the retry
attempts and sleeps `query_all` performed. -/
def queryOne (f : Nat → Except RawDriverError (List ρ)) : RetryOutcome (Option ρ) :=
  let r := queryAll f
  { attemptsMade := r.attemptsMade
    sleeps := r.sleeps
    result :=
      match r.result with
      | .ok rows => .ok rows.head?
      | .error e => .error e }

/-! ### Schema validator

`SchemaValidator.validate_schema` (schema_validator.py, lines 151-203) diffs
the expected schema parsed from azure.sql against the tables reflected from
the remote database.  The expected schema and the reflected tables are
embedded as association lists keyed by table name (Python dicts); the
reflection step, which runs catalog queries through the gateway, is embedded
as its outcome: either the reflected tables or the exception message the
gateway raised.  Deviation messages are modelled structurally (one
constructor per `deviations.append` site) since only their presence matters
for the results. -/

/-- Embeds the `TableSchema` dataclass: expected shape of one table. -/
structure TableSchema where
  name : String
  columns : List (String × String)
  primary_key : Option String := none
  foreign_keys : List (String × String × String) := []
deriving DecidableEq, Repr

/-- One reflected remote table, as built by `_get_existing_tables`. -/
structure ExistingTable where
  columns : List (String × String)
  primary_key : Option String := none
  foreign_keys : List (String × String × String) := []
deriving DecidableEq, Repr

/-- The four kinds of issue string `_compare_table_schema` can append. -/
inductive Deviation where
  | missingColumns (cols : List String)
  | extraColumns (cols : List String)
  | typeMismatch (col expectedType foundType : String)
  | pkMismatch (expectedPk foundPk : Option String)
deriving DecidableEq, Repr

/-- Embeds the `SchemaValidationResult` dataclass. -/
structure SchemaValidationResult where
  is_valid : Bool
  missing_tables : List String
  extra_tables : List String
  table_deviations : List (String × List Deviation)
  has_no_tables : Bool := false
  error_message : Option String := none
deriving DecidableEq, Repr

/-- Embeds Python `s.upper()` (characterwise, agreeing on the ASCII SQL type
names compared here). -/
def strUpper (s : String) : String :=
  ⟨s.data.map Char.toUpper⟩

/-- Embeds `SchemaValidator._are_types_compatible` (schema_validator.py,
lines 318-339): exact equality, plus the three literal special cases
`DATETIME2(3)`/`DATETIME2`, `NVARCHAR`/`NVARCHAR(MAX)` and
`VARCHAR`/`VARCHAR(MAX)`, each in both directions. -/
def areTypesCompatible (expectedType existingType : String) : Bool :=
  if expectedType == existingType then true
  else if (expectedType == "DATETIME2(3)" && existingType == "DATETIME2")
      || (expectedType == "DATETIME2" && existingType == "DATETIME2(3)") then true
  else if (expectedType == "NVARCHAR" && existingType == "NVARCHAR(MAX)")
      || (expectedType == "NVARCHAR(MAX)" && existingType == "NVARCHAR") then true
  else if (expectedType == "VARCHAR" && existingType == "VARCHAR(MAX)")
      || (expectedType == "VARCHAR(MAX)" && existingType == "VARCHAR") then true
  else false

/-- Embeds `SchemaValidator._compare_table_schema` (schema_validator.py,
lines 288-316).  Python iterates sets; the embedding iterates in
expected-column order, which preserves exactly which deviations are present. -/
def compareTableSchema (expected : TableSchema) (existing : ExistingTable) : List Deviation :=
  let expectedCols := expected.columns.map Prod.fst
  let existingCols := existing.columns.map Prod.fst
  let missingCols := expectedCols.filter (fun c => !(existingCols.contains c))
  let extraCols := existingCols.filter (fun c => !(expectedCols.contains c))
  let d1 : List Deviation := if missingCols.isEmpty then [] else [.missingColumns missingCols]
  let d2 : List Deviation := if extraCols.isEmpty then [] else [.extraColumns extraCols]
  let typeDevs : List Deviation :=
    (expectedCols.filter (fun c => existingCols.contains c)).filterMap (fun c =>
      match expected.columns.lookup c, existing.columns.lookup c with
      | some et, some xt =>
        if areTypesCompatible (strUpper et) (strUpper xt) then none
        else some (.typeMismatch c (strUpper et) (strUpper xt))
      | _, _ => none)
  let d4 : List Deviation :=
    if expected.primary_key == existing.primary_key then []
    else [.pkMismatch expected.primary_key existing.primary_key]
  d1 ++ d2 ++ typeDevs ++ d4

/-- Embeds `SchemaValidator.validate_schema` (schema_validator.py, lines
151-203): reflection failure gives an error result; an empty reflected
database gives the `has_no_tables` result listing every expected table as
missing; otherwise set-difference table names and diff tables in common. -/
def validateSchema (expected : List (String × TableSchema))
    (fetched : Except String (List (String × ExistingTable))) : SchemaValidationResult :=
  match fetched with
  | .error e =>
    { is_valid := false, missing_tables := [], extra_tables := [],
      table_deviations := [], has_no_tables := false, error_message := some e }
  | .ok tables =>
    if tables.isEmpty then
      { is_valid := false, missing_tables := expected.map Prod.fst, extra_tables := [],
        table_deviations := [], has_no_tables := true, error_message := none }
    else
      let expectedNames := expected.map Prod.fst
      let existingNames := tables.map Prod.fst
      let missing := expectedNames.filter (fun n => !(existingNames.contains n))
      let extra := existingNames.filter (fun n => !(expectedNames.contains n))
      let devs := (expectedNames.filter (fun n => existingNames.contains n)).filterMap
        (fun n =>
          match expected.lookup n, tables.lookup n with
          | some e, some x =>
            let ds := compareTableSchema e x
            if ds.isEmpty then none else some (n, ds)
          | _, _ => none)
      { is_valid := missing.isEmpty && extra.isEmpty && devs.isEmpty,
        missing_tables := missing, extra_tables := extra, table_deviations := devs,
        has_no_tables := false, error_message := none }

/-- First result shape of C3: a database error was captured. -/
def shapeError (r : SchemaValidationResult) : Prop :=
  r.error_message.isSome = true

/-- Second result shape of C3: the remote database had no in-scope tables. -/
def shapeNoTables (r : SchemaValidationResult) : Prop :=
  r.has_no_tables = true

/-- Third result shape of C3: the schema matched. -/
def shapeValid (r : SchemaValidationResult) : Prop :=
  r.is_valid = true

/-- Fourth result shape of C3: some missing/extra table or table deviation. -/
def shapeDeviations (r : SchemaValidationResult) : Prop :=
  r.missing_tables ≠ [] ∨ r.extra_tables ≠ [] ∨ r.table_deviations ≠ []

/-- The property claim C3 asserts of a result: the four shapes cover it and
no two of them hold simultaneously. -/
def exactlyOneShape (r : SchemaValidationResult) : Prop :=
  (shapeError r ∨ shapeNoTables r ∨ shapeValid r ∨ shapeDeviations r)
  ∧ ¬(shapeError r ∧ shapeNoTables r) ∧ ¬(shapeError r ∧ shapeValid r)
  ∧ ¬(shapeError r ∧ shapeDeviations r) ∧ ¬(shapeNoTables r ∧ shapeValid r)
  ∧ ¬(shapeNoTables r ∧ shapeDeviations r) ∧ ¬(shapeValid r ∧ shapeDeviations r)

/-- The amended shape discipline actually enforced by `validate_schema`: the
four shapes cover every result; the error shape and the valid shape each
exclude all others; the no-tables shape excludes error and valid but always
co-occurs with a non-empty `missing_tables` listing every expected table. -/
def shapePriorityPartition (r : SchemaValidationResult) (expectedNames : List String) : Prop :=
  (shapeError r ∨ shapeNoTables r ∨ shapeValid r ∨ shapeDeviations r)
  ∧ (shapeError r → ¬shapeNoTables r ∧ ¬shapeValid r ∧ ¬shapeDeviations r)
  ∧ (shapeValid r → ¬shapeError r ∧ ¬shapeNoTables r ∧ ¬shapeDeviations r)
  ∧ (shapeNoTables r → ¬shapeError r ∧ ¬shapeValid r
      ∧ r.missing_tables = expectedNames ∧ shapeDeviations r)

/-- Expected schema with a single table, used by the C3 counterexample and
witness: validating it against an empty remote database marks the table both
as `has_no_tables` and as missing. -/
def expectedOneTable : List (String × TableSchema) :=
  [("cpd-settings",
    { name := "cpd-settings", columns := [("Id", "INT")], primary_key := some "Id" })]

/-- Expected table for C5 with an unqualified NVARCHAR column. -/
def tableNvarcharDecl : TableSchema :=
  { name := "cpd-doc", columns := [("Body", "NVARCHAR")], primary_key := some "Id" }

/-- Reflected table for C5 whose column came back as NVARCHAR(MAX). -/
def tableNvarcharMaxActual : ExistingTable :=
  { columns := [("Body", "NVARCHAR(MAX)")], primary_key := some "Id" }

/-- Expected table for C5 with an INT column. -/
def tableIntDecl : TableSchema :=
  { name := "cpd-num", columns := [("Count", "INT")], primary_key := some "Id" }

/-- Reflected table for C5 whose column came back as VARCHAR. -/
def tableVarcharActual : ExistingTable :=
  { columns := [("Count", "VARCHAR")], primary_key := some "Id" }

/-- Expected table for the C5 counterexample: a length-qualified NVARCHAR(50)
column. -/
def tableNvarchar50Decl : TableSchema :=
  { name := "cpd-doc", columns := [("Body", "NVARCHAR(50)")], primary_key := some "Id" }

/-! ### Gateway observer hook

`DatabaseGateway._notify` (database_gateway.py, lines 141-149) wraps the
optional observer callback in a try/except that swallows every exception.
`SqliteAdapter.execute` (sqlite_adapter.py, lines 71-83) is the
representative operation around it: one event is emitted whether the
statement succeeds or fails, with the failure message cut to 200 characters.
An observer is embedded as a callback that may raise (`Except String Unit`);
the operation result is threaded through the notify outcome exactly as
Python exception flow would, so that the protection `_notify` provides is a
provable property rather than an assumption. -/

/-- The sqlite3 exception classes `map_sqlite_exception` distinguishes. -/
inductive SqliteExcKind where
  | integrity
  | operational
  | programming
  | databaseErr
  | other
deriving DecidableEq, Repr

/-- A raw sqlite3 exception: its class and its message text. -/
structure SqliteExc where
  kind : SqliteExcKind
  msg : String
deriving DecidableEq, Repr

/-- Embeds `map_sqlite_exception` from `database_gateway.py`: integrity
errors are conflicts; operational errors split on the missing-object and
locked message patterns (case-insensitive); the rest map by class. -/
def mapSqliteException (e : SqliteExc) : DbError :=
  match e.kind with
  | .integrity => ⟨.conflict, e.msg⟩
  | .operational =>
    if strContains (strLower e.msg) "no such table:"
        || strContains (strLower e.msg) "no such column:"
        || strContains (strLower e.msg) "no such index:" then
      ⟨.notFound, e.msg⟩
    else if strContains (strLower e.msg) "database is locked" then
      ⟨.transient, e.msg⟩
    else
      ⟨.operational, e.msg⟩
  | .programming => ⟨.programming, e.msg⟩
  | .databaseErr => ⟨.operational, e.msg⟩
  | .other => ⟨.base, e.msg⟩

/-- The structured observer event (the `duration_ms` wall-clock field is
omitted from the embedding). -/
structure GatewayEvent where
  op : String
  backend : String
  success : Bool
  rowcount : Option Nat := none
  error_class : Option String := none
  error_message : Option String := none
deriving DecidableEq, Repr

/-- Embeds `DatabaseGateway._notify`: no observer means nothing happens; an
installed observer is called and any exception it raises is swallowed. -/
def notifyRun (observer : Option (GatewayEvent → Except String Unit))
    (event : GatewayEvent) : Except String Unit :=
  match observer with
  | none => .ok ()
  | some cb =>
    match cb event with
    | .ok _ => .ok ()
    | .error _ => .ok ()

/-- Embeds `SqliteAdapter.execute`: the underlying cursor execution either
yields a raw rowcount or raises a raw sqlite exception.  Returns the
operation result together with the notification trace — each emitted event
paired with the outcome `_notify` produced for it.  A notify outcome of
`.error` would replace the operation result, mirroring Python exception
flow; `notifyRun` never produces one. -/
def executeSqlite (cursorResult : Except SqliteExc Int)
    (observer : Option (GatewayEvent → Except String Unit)) :
    Except DbError Nat × List (GatewayEvent × Except String Unit) :=
  match cursorResult with
  | .ok rc =>
    let rc2 : Nat := if rc < 0 then 0 else rc.toNat
    let ev : GatewayEvent :=
      { op := "execute", backend := "sqlite", success := true, rowcount := some rc2 }
    match notifyRun observer ev with
    | .ok u => (.ok rc2, [(ev, .ok u)])
    | .error s => (.error ⟨.base, s⟩, [(ev, .error s)])
  | .error exc =>
    let err := mapSqliteException exc
    let ev : GatewayEvent :=
      { op := "execute", backend := "sqlite", success := false,
        error_class := some (className err.cls),
        error_message := some (strTake err.msg 200) }
    match notifyRun observer ev with
    | .ok u => (.error err, [(ev, .ok u)])
    | .error s => (.error ⟨.base, s⟩, [(ev, .error s)])

/-- Boolean check that an emitted event carries an error message of at most
200 characters (events without an error message pass trivially). -/
def eventMessageBounded (p : GatewayEvent × Except String Unit) : Bool :=
  match p.1.error_message with
  | none => true
  | some m => decide (m.length ≤ 200)

/-! ### Azure AD token manager

`AzureADTokenManager.get_connection_string` (azure_ad_token_manager.py,
lines 95-118) and `AuthToken.is_expired` (lines 24-27).  The token cache
dict is embedded as an association list, `datetime.now()` as an integer
timestamp in seconds, and the 5-minute expiry buffer as 300 seconds. -/

/-- Embeds the `AuthToken` dataclass with an integer expiry timestamp. -/
structure AuthToken where
  access_token : String
  expires_at : Int
  refresh_token : Option String := none
  token_type : String := "Bearer"
deriving DecidableEq, Repr

/-- Embeds `AuthToken.is_expired`: true once `now` reaches the expiry
timestamp minus the 5-minute (300 s) safety buffer. -/
def AuthToken.isExpired (t : AuthToken) (now : Int) : Bool :=
  decide (now ≥ t.expires_at - 300)

/-- Embeds the `ConnectionDescriptor` dataclass. -/
structure ConnectionDescriptor where
  server : String
  database : String
  auth_type : String
  username : Option String := none
  authority : Option String := none
  timeout_seconds : Nat := 30
  use_driver17 : Bool := false
deriving DecidableEq, Repr

/-- Embeds `ConnectionDescriptor.cache_key`. -/
def ConnectionDescriptor.cacheKey (d : ConnectionDescriptor) : String :=
  d.server ++ ":" ++ d.database ++ ":" ++ d.auth_type ++ ":" ++ d.username.getD "none"

/-- Embeds `_build_base_connection_string`. -/
def buildBaseConnectionString (d : ConnectionDescriptor) : String :=
  let driver := if d.use_driver17 then "ODBC Driver 17 for SQL Server"
                else "ODBC Driver 18 for SQL Server"
  "DRIVER=\x7b" ++ driver ++ "\x7d;SERVER=" ++ d.server ++ ";DATABASE=" ++ d.database
    ++ ";Encrypt=yes;TrustServerCertificate=yes"

/-- Appends `;UID=<username>` when a username is present, as the Python
string assembly does. -/
def appendUid (s : String) (username : Option String) : String :=
  match username with
  | some u => s ++ ";UID=" ++ u
  | none => s

/-- Appends `;Authority=<authority>` when an authority is present. -/
def appendAuthority (s : String) (authority : Option String) : String :=
  match authority with
  | some a => s ++ ";Authority=" ++ a
  | none => s

/-- Embeds `_build_connection_string_with_token` with its three branches on
the placeholder token markers. -/
def buildConnectionStringWithToken (d : ConnectionDescriptor) (t : AuthToken) : String :=
  if t.access_token == "odbc_cached" then
    appendAuthority
      (appendUid (buildBaseConnectionString d ++ ";Authentication=ActiveDirectoryInteractive")
        d.username)
      d.authority
  else if t.access_token == "odbc_cached_driver17" then
    appendAuthority
      (appendUid
        ("DRIVER=\x7bODBC Driver 17 for SQL Server\x7d;SERVER=" ++ d.server
          ++ ";DATABASE=" ++ d.database
          ++ ";Encrypt=yes;TrustServerCertificate=yes;Authentication=ActiveDirectoryInteractive")
        d.username)
      d.authority
  else
    buildBaseConnectionString d ++ ";AccessToken=" ++ t.access_token

/-- The error message `get_connection_string` raises when no valid token is
cached. -/
def noTokenMessage (key : String) : String :=
  "No valid authentication token found for " ++ key
    ++ ". Call authenticate_and_cache() first from main thread."

/-- Embeds `AzureADTokenManager.get_connection_string`: return the built
connection string for a cached, unexpired token; on an expired cached token,
evict it and raise; with no cached token, raise.  Returns the result and the
updated cache. -/
def getConnectionString (cache : List (String × AuthToken)) (now : Int)
    (d : ConnectionDescriptor) : Except String String × List (String × AuthToken) :=
  let key := d.cacheKey
  match cache.lookup key with
  | some token =>
    if token.isExpired now then
      (.error (noTokenMessage key), cache.filter (fun p => !(p.1 == key)))
    else
      (.ok (buildConnectionStringWithToken d token), cache)
  | none => (.error (noTokenMessage key), cache)

/-! ### Background execution bridge

`run_bg` (background_runner.py, lines 48-77).  The done-callback receives
the work outcome and schedules at most one of `on_result` / `on_error` for
queued dispatch on the UI thread; the embedding records what gets scheduled.
The executor's guarantee that the done-callback runs exactly once per
submission is infrastructure and is taken as the model's starting point. -/

/-- A callback scheduled for UI-thread dispatch by the done-callback. -/
inductive ScheduledCallback (α ε : Type) where
  | onResult (v : α)
  | onError (e : ε)
deriving DecidableEq, Repr

/-- Embeds the `_done_cb` closure of `run_bg`: on a raised exception,
schedule `on_error` (when supplied) and return; otherwise schedule
`on_result` (when supplied). -/
def doneCallback (hasOnResult hasOnError : Bool) (outcome : Except ε α) :
    List (ScheduledCallback α ε) :=
  match outcome with
  | .error e => if hasOnError then [.onError e] else []
  | .ok v => if hasOnResult then [.onResult v] else []

/-- A batch of submissions with both callbacks supplied: each unit of work
contributes the callbacks its own done-callback schedules. -/
def runBatch (outcomes : List (Except ε α)) : List (ScheduledCallback α ε) :=
  (outcomes.map (doneCallback true true)).flatten

/-- Whether a work outcome is a raised exception. -/
def isErrorOutcome : Except ε α → Bool
  | .error _ => true
  | .ok _ => false

/-- Whether a scheduled callback is an `on_error` invocation. -/
def isErrorCallback : ScheduledCallback α ε → Bool
  | .onError _ => true
  | .onResult _ => false

/-- Whether a scheduled callback is an `on_result` invocation. -/
def isResultCallback : ScheduledCallback α ε → Bool
  | .onResult _ => true
  | .onError _ => false

/-- Whether a work outcome is a normal return. -/
def isOkOutcome : Except ε α → Bool
  | .ok _ => true
  | .error _ => false

/-- Concrete operation for the C2 witness: fails transiently on the first two
attempts (Azure "service is busy" message), succeeds on the third. -/
def opBusyTwiceThenOk : Nat → Except RawDriverError Nat
  | 0 => .error ⟨"service is busy", none, none⟩
  | 1 => .error ⟨"service is busy", none, none⟩
  | _ => .ok 42

/-- Concrete operation for the C2 witness: fails transiently on every attempt. -/
def opBusyAlways : Nat → Except RawDriverError Nat :=
  fun _ => .error ⟨"temporarily unavailable", none, none⟩

/-- Concrete operation for the C2 witness: fails with a non-transient
(`Operational`) error on the first attempt. -/
def opFatalFirst : Nat → Except RawDriverError Nat :=
  fun _ => .error ⟨"bad statement", none, none⟩

/-- Concrete operation for the C2 witness: fails transiently on the first
attempt, then with a non-transient error on the second. -/
def opBusyThenFatal : Nat → Except RawDriverError Nat
  | 0 => .error ⟨"service is busy", none, none⟩
  | _ => .error ⟨"bad statement", none, none⟩

/-- Concrete operation for the C2 witness: fails transiently on the first
two attempts, then with a non-transient error on the third. -/
def opBusyTwiceThenFatal : Nat → Except RawDriverError Nat
  | 0 => .error ⟨"service is busy", none, none⟩
  | 1 => .error ⟨"service is busy", none, none⟩
  | _ => .error ⟨"bad statement", none, none⟩

/-- Concrete fetch for the C10 witness: returns two rows on the first attempt. -/
def opTwoRows : Nat → Except RawDriverError (List Nat) :=
  fun _ => .ok [7, 8]

/-- Concrete descriptor for the C8 witness. -/
def descInteractive : ConnectionDescriptor :=
  { server := "srv.example.net", database := "cpd",
    auth_type := "azure_ad_interactive", username := some "user@example.com" }

/-- Concrete cached token for the C8 witness: expires at t = 3600 s, so it
counts as expired from t = 3300 s on (5-minute buffer). -/
def tokenFresh : AuthToken :=
  { access_token := "odbc_cached", expires_at := 3600 }

/-- Concrete batch for the C9 witness: ten submissions of which exactly the
third raises. -/
def outcomesTen : List (Except String Nat) :=
  [.ok 1, .ok 2, .error "boom", .ok 4, .ok 5, .ok 6, .ok 7, .ok 8, .ok 9, .ok 10]

end CPD

namespace CPD

theorem strTake_length_le (s : String) (n : Nat) : (strTake s n).length ≤ n :=
  List.length_take_le n s.data

/-- Running any body at depth at least 1 with the dedicated connection held
restores the adapter state exactly: nested scopes are balanced and never open
or close the connection. -/
theorem runBody_state_preserved (b : TxBody) :
    ∀ st : TxState, 1 ≤ st.txDepth → st.txConn = true → (runBody b st).1 = st := by
  induction b with
  | ok => intro st _ _; rfl
  | err => intro st _ _; rfl
  | seq a c iha ihc =>
    intro st hd hc
    have ha := iha st hd hc
    rcases hra : runBody a st with ⟨st', r⟩
    rw [hra] at ha
    simp only at ha
    subst ha
    cases r with
    | true => simp [runBody, hra]
    | false => simp [runBody, hra, ihc _ hd hc]
  | scope spec body ih =>
    intro st hd hc
    obtain ⟨d, cn, o, cl⟩ := st
    have hc' : cn = true := hc
    subst hc'
    have hd' : 1 ≤ d := hd
    have hd0 : (d == 0) = false := by
      simp only [beq_eq_false_iff_ne, ne_eq]
      omega
    have hbody := ih ⟨d + 1, true, o, cl⟩ (Nat.le_add_left 1 d) rfl
    have hfin : txFinally ⟨d + 1, true, o, cl⟩ = ⟨d, true, o, cl⟩ := by
      simp [txFinally, hd0]
    rcases hrb : runBody body ⟨d + 1, true, o, cl⟩ with ⟨st3, r⟩
    rw [hrb] at hbody
    simp only at hbody
    subst hbody
    cases hs : spec.startRaises <;> cases r <;>
      simp [runBody, hd0, hrb, hfin, hs]

/-- C1: for every transaction body (any nesting of `transaction()` scopes,
ending in commit, rollback, or an exception at any depth, including when the
rollback or commit call itself raises), starting from the idle adapter the
depth counter returns to 0, the dedicated connection is no longer held, and it
was opened exactly once and closed exactly once. -/
theorem c1_transaction_invariant (spec : ScopeSpec) (body : TxBody)
    (hconnect : spec.connectRaises = false) :
    (runBody (TxBody.scope spec body) ⟨0, false, 0, 0⟩).1 = ⟨0, false, 1, 1⟩ := by
  have hbody := runBody_state_preserved body ⟨1, true, 1, 0⟩ (by decide) rfl
  rcases hrb : runBody body ⟨1, true, 1, 0⟩ with ⟨st3, r⟩
  rw [hrb] at hbody
  simp only at hbody
  subst hbody
  cases hs : spec.startRaises <;>
    cases r <;>
      simp_all [runBody, txFinally, hconnect, hrb]

/-- Witness for C1: a concrete doubly-nested transaction whose inner scope
raises and whose outer commit raises still restores depth 0 with the
connection opened and closed exactly once. -/
theorem c1_transaction_invariant_witness :
    (runBody (TxBody.scope ⟨false, false, true, true⟩
        (TxBody.seq (TxBody.scope ⟨false, false, false, false⟩ TxBody.err) TxBody.ok))
      ⟨0, false, 0, 0⟩).1 = ⟨0, false, 1, 1⟩ :=
  c1_transaction_invariant _ _ rfl

/-- C2: under `_with_retry` with the default limit of 3 attempts: an operation
failing with `Transient`-classified errors on the first two attempts and
succeeding on the third returns the success after exactly 3 attempts with
backoff sleeps of 500 ms then 1000 ms; an operation failing transiently on
all 3 attempts raises the final classified error after the same 3 attempts
and sleeps; and a failure classified non-`Transient` is raised immediately
with no further attempt and no further sleep at every position it can occur:
on the first attempt (1 attempt, no sleep), after one transient failure
(2 attempts, one 500 ms sleep), or after two transient failures (3 attempts,
500 ms and 1000 ms sleeps). -/
theorem c2_retry_policy {α : Type} (f : Nat → Except RawDriverError α) :
    (∀ e0 e1 v, f 0 = .error e0 → f 1 = .error e1 → f 2 = .ok v →
      (mapMssqlError e0.msg e0.code e0.sqlstate).cls = DbErrClass.transient →
      (mapMssqlError e1.msg e1.code e1.sqlstate).cls = DbErrClass.transient →
      withRetry f 3 = ⟨3, [500, 1000], .ok v⟩)
    ∧ (∀ e0 e1 e2, f 0 = .error e0 → f 1 = .error e1 → f 2 = .error e2 →
      (mapMssqlError e0.msg e0.code e0.sqlstate).cls = DbErrClass.transient →
      (mapMssqlError e1.msg e1.code e1.sqlstate).cls = DbErrClass.transient →
      withRetry f 3 = ⟨3, [500, 1000],
        .error (mapMssqlError e2.msg e2.code e2.sqlstate)⟩)
    ∧ (∀ e0, f 0 = .error e0 →
      (mapMssqlError e0.msg e0.code e0.sqlstate).cls ≠ DbErrClass.transient →
      withRetry f 3 = ⟨1, [], .error (mapMssqlError e0.msg e0.code e0.sqlstate)⟩)
    ∧ (∀ e0 e1, f 0 = .error e0 → f 1 = .error e1 →
      (mapMssqlError e0.msg e0.code e0.sqlstate).cls = DbErrClass.transient →
      (mapMssqlError e1.msg e1.code e1.sqlstate).cls ≠ DbErrClass.transient →
      withRetry f 3 = ⟨2, [500], .error (mapMssqlError e1.msg e1.code e1.sqlstate)⟩)
    ∧ (∀ e0 e1 e2, f 0 = .error e0 → f 1 = .error e1 → f 2 = .error e2 →
      (mapMssqlError e0.msg e0.code e0.sqlstate).cls = DbErrClass.transient →
      (mapMssqlError e1.msg e1.code e1.sqlstate).cls = DbErrClass.transient →
      (mapMssqlError e2.msg e2.code e2.sqlstate).cls ≠ DbErrClass.transient →
      withRetry f 3 = ⟨3, [500, 1000],
        .error (mapMssqlError e2.msg e2.code e2.sqlstate)⟩) := by
  refine ⟨?_, ?_, ?_, ?_, ?_⟩
  · intro e0 e1 v h0 h1 h2 ht0 ht1
    simp [withRetry, withRetryGo, h0, h1, h2, ht0, ht1]
  · intro e0 e1 e2 h0 h1 h2 ht0 ht1
    simp [withRetry, withRetryGo, h0, h1, h2, ht0, ht1]
  · intro e0 h0 hne
    have hfalse : ((mapMssqlError e0.msg e0.code e0.sqlstate).cls
        == DbErrClass.transient) = false := by
      simp [hne]
    simp [withRetry, withRetryGo, h0, hfalse]
  · intro e0 e1 h0 h1 ht0 hne1
    have hfalse : ((mapMssqlError e1.msg e1.code e1.sqlstate).cls
        == DbErrClass.transient) = false := by
      simp [hne1]
    simp [withRetry, withRetryGo, h0, h1, ht0, hfalse]
  · intro e0 e1 e2 h0 h1 h2 ht0 ht1 _
    simp [withRetry, withRetryGo, h0, h1, h2, ht0, ht1]

/-- Witness for C2: the retry behaviours evaluated on concrete operations
with concrete MSSQL error messages, including a non-transient failure at
each of the three attempt positions. -/
theorem c2_retry_policy_witness :
    withRetry opBusyTwiceThenOk 3 = ⟨3, [500, 1000], .ok 42⟩
    ∧ withRetry opBusyAlways 3 = ⟨3, [500, 1000],
        .error (mapMssqlError "temporarily unavailable" none none)⟩
    ∧ withRetry opFatalFirst 3 = ⟨1, [], .error (mapMssqlError "bad statement" none none)⟩
    ∧ withRetry opBusyThenFatal 3 = ⟨2, [500],
        .error (mapMssqlError "bad statement" none none)⟩
    ∧ withRetry opBusyTwiceThenFatal 3 = ⟨3, [500, 1000],
        .error (mapMssqlError "bad statement" none none)⟩ :=
  ⟨(c2_retry_policy opBusyTwiceThenOk).1 ⟨"service is busy", none, none⟩
      ⟨"service is busy", none, none⟩ 42 rfl rfl rfl (by decide) (by decide),
   (c2_retry_policy opBusyAlways).2.1 ⟨"temporarily unavailable", none, none⟩
      ⟨"temporarily unavailable", none, none⟩ ⟨"temporarily unavailable", none, none⟩
      rfl rfl rfl (by decide) (by decide),
   (c2_retry_policy opFatalFirst).2.2.1 ⟨"bad statement", none, none⟩ rfl (by decide),
   (c2_retry_policy opBusyThenFatal).2.2.2.1 ⟨"service is busy", none, none⟩
      ⟨"bad statement", none, none⟩ rfl rfl (by decide) (by decide),
   (c2_retry_policy opBusyTwiceThenFatal).2.2.2.2 ⟨"service is busy", none, none⟩
      ⟨"service is busy", none, none⟩ ⟨"bad statement", none, none⟩
      rfl rfl rfl (by decide) (by decide) (by decide)⟩

/-- C10: `query_one` returns exactly the first row of what `query_all`
returns on the same arguments when that list is non-empty, `none` when it is
empty, propagates the same classified error when `query_all` raises, and
performs the identical retry attempts and backoff sleeps. -/
theorem c10_query_one_head {ρ : Type} (f : Nat → Except RawDriverError (List ρ)) :
    (queryOne f).attemptsMade = (queryAll f).attemptsMade
    ∧ (queryOne f).sleeps = (queryAll f).sleeps
    ∧ (∀ x rows, (queryAll f).result = .ok (x :: rows) → (queryOne f).result = .ok (some x))
    ∧ ((queryAll f).result = .ok [] → (queryOne f).result = .ok none)
    ∧ (∀ e, (queryAll f).result = .error e → (queryOne f).result = .error e) := by
  refine ⟨rfl, rfl, ?_, ?_, ?_⟩
  · intro x rows h
    simp [queryOne, h]
  · intro h
    simp [queryOne, h]
  · intro e h
    simp [queryOne, h]

/-- Witness for C10: on a fetch returning rows `[7, 8]` at the first attempt,
`query_one` yields row 7 with the same single attempt as `query_all`. -/
theorem c10_query_one_head_witness :
    (queryOne opTwoRows).result = .ok (some 7)
    ∧ (queryOne opTwoRows).attemptsMade = (queryAll opTwoRows).attemptsMade :=
  ⟨(c10_query_one_head opTwoRows).2.2.1 7 [8] rfl, (c10_query_one_head opTwoRows).1⟩

/-- The non-empty diff branch of `validate_schema` satisfies the priority
shape partition: validity is definitionally the emptiness of all three diff
outputs, and neither the error nor the no-tables flag is set there. -/
theorem diffBranchShapes (M E : List String) (D : List (String × List Deviation))
    (names : List String) :
    shapePriorityPartition
      { is_valid := M.isEmpty && E.isEmpty && D.isEmpty, missing_tables := M,
        extra_tables := E, table_deviations := D, has_no_tables := false,
        error_message := none } names := by
  refine ⟨?_, ?_, ?_, ?_⟩
  · by_cases hM : M = [] <;> by_cases hE : E = [] <;> by_cases hD : D = [] <;>
      simp [shapeError, shapeNoTables, shapeValid, shapeDeviations, hM, hE, hD]
  · intro h
    simp [shapeError] at h
  · intro h
    simp only [shapeValid, Bool.and_eq_true, List.isEmpty_eq_true] at h
    obtain ⟨⟨hM, hE⟩, hD⟩ := h
    simp [shapeError, shapeNoTables, shapeDeviations, hM, hE, hD]
  · intro h
    simp [shapeNoTables] at h

/-- C3 counterexample: with a non-empty expected schema and an empty remote
database, the result sets `has_no_tables` AND lists every expected table in
`missing_tables`, so two of the four claimed shapes hold simultaneously and
the claimed mutual exclusion fails. -/
theorem c3_counterexample :
    ¬ exactlyOneShape (validateSchema expectedOneTable (Except.ok [])) := by
  intro h
  refine h.2.2.2.2.2.1 ⟨?_, Or.inl ?_⟩
  · show (validateSchema expectedOneTable (Except.ok [])).has_no_tables = true
    decide
  · show (validateSchema expectedOneTable (Except.ok [])).missing_tables ≠ []
    decide

/-- C3 (amended): for a non-empty expected schema, every result of
`validate_schema` is covered by the four shapes; the error shape and the
valid shape each exclude all the others; the no-tables shape excludes error
and valid but always co-occurs with a non-empty `missing_tables` equal to the
full expected table list — so the dialog priority order error, no-tables,
valid, deviations selects a unique branch. -/
theorem c3_shape_priority (expected : List (String × TableSchema))
    (fetched : Except String (List (String × ExistingTable)))
    (hne : expected ≠ []) :
    shapePriorityPartition (validateSchema expected fetched) (expected.map Prod.fst) := by
  cases fetched with
  | error e =>
    refine ⟨Or.inl rfl, fun _ => ?_, fun h => ?_, fun h => ?_⟩
    · simp [validateSchema, shapeNoTables, shapeValid, shapeDeviations]
    · simp [validateSchema, shapeValid] at h
    · simp [validateSchema, shapeNoTables] at h
  | ok tables =>
    cases ht : tables.isEmpty with
    | true =>
      have hmap : expected.map Prod.fst ≠ [] := by
        simpa using hne
      refine ⟨Or.inr (Or.inl ?_), fun h => ?_, fun h => ?_, fun _ => ?_⟩
      · simp [validateSchema, ht, shapeNoTables]
      · simp [validateSchema, ht, shapeError] at h
      · simp [validateSchema, ht, shapeValid] at h
      · refine ⟨?_, ?_, ?_, ?_⟩
        · simp [validateSchema, ht, shapeError]
        · simp [validateSchema, ht, shapeValid]
        · simp [validateSchema, ht]
        · exact Or.inl (by simpa [validateSchema, ht] using hmap)
    | false =>
      simpa [validateSchema, ht] using
        diffBranchShapes _ _ _ (expected.map Prod.fst)

/-- Witness for C3 (amended): the shape partition evaluated at the one-table
expected schema against an empty remote database. -/
theorem c3_shape_priority_witness :
    shapePriorityPartition (validateSchema expectedOneTable (Except.ok []))
      (expectedOneTable.map Prod.fst) :=
  c3_shape_priority expectedOneTable (Except.ok []) (by decide)

/-- C4: with no database error, `validate_schema` reports `has_no_tables` if
and only if the remote database contained zero in-scope tables, so the
empty-database case is always distinguished from the missing-tables case. -/
theorem c4_empty_database_flag (expected : List (String × TableSchema))
    (tables : List (String × ExistingTable)) :
    (validateSchema expected (Except.ok tables)).has_no_tables = tables.isEmpty := by
  cases ht : tables.isEmpty <;> simp [validateSchema, ht]

/-- C5 counterexample: the claimed generalization that a length-qualified
type is compatible with its maximum-length variant fails — NVARCHAR(50)
against NVARCHAR(MAX) is not compatible and IS reported as a deviation. -/
theorem c5_counterexample :
    areTypesCompatible "NVARCHAR(50)" "NVARCHAR(MAX)" = false
    ∧ areTypesCompatible "NVARCHAR(MAX)" "NVARCHAR(50)" = false
    ∧ compareTableSchema tableNvarchar50Decl tableNvarcharMaxActual
      = [Deviation.typeMismatch "Body" "NVARCHAR(50)" "NVARCHAR(MAX)"] := by
  refine ⟨by decide, by decide, by decide⟩

/-- C5 (amended): the validator treats exactly the literal pairs as
compatible — an unqualified NVARCHAR (resp. VARCHAR) against its MAX variant
in either direction, and DATETIME2 against DATETIME2(3) — so a declared
NVARCHAR column reflected as NVARCHAR(MAX) produces no deviation, while a
declared INT column reflected as VARCHAR produces a type deviation; a
length-qualified type such as NVARCHAR(50) is NOT compatible with its MAX
variant. -/
theorem c5_type_compat :
    areTypesCompatible "NVARCHAR" "NVARCHAR(MAX)" = true
    ∧ areTypesCompatible "NVARCHAR(MAX)" "NVARCHAR" = true
    ∧ areTypesCompatible "VARCHAR" "VARCHAR(MAX)" = true
    ∧ areTypesCompatible "VARCHAR(MAX)" "VARCHAR" = true
    ∧ areTypesCompatible "DATETIME2" "DATETIME2(3)" = true
    ∧ areTypesCompatible "DATETIME2(3)" "DATETIME2" = true
    ∧ areTypesCompatible "INT" "VARCHAR" = false
    ∧ compareTableSchema tableNvarcharDecl tableNvarcharMaxActual = []
    ∧ compareTableSchema tableIntDecl tableVarcharActual
      = [Deviation.typeMismatch "Count" "INT" "VARCHAR"]
    ∧ areTypesCompatible "NVARCHAR(50)" "NVARCHAR(MAX)" = false := by
  refine ⟨by decide, by decide, by decide, by decide, by decide, by decide, by decide,
    by decide, by decide, by decide⟩

/-- C6: any remote-engine error whose SQLSTATE is 28000 or whose message
contains one of the login-failure signatures (FA004, "Login failed", 18456)
is classified `Auth` by `map_mssql_error`, regardless of the numeric error
code or any other pattern present in the same message. -/
theorem c6_auth_precedence (msg : String) (code : Option Int) (sqlstate : Option String)
    (h : sqlstate = some "28000" ∨ strContains msg "FA004" = true
      ∨ strContains msg "Login failed" = true ∨ strContains msg "18456" = true) :
    (mapMssqlError msg code sqlstate).cls = DbErrClass.auth := by
  have hcond : (sqlstate == some "28000" || strContains msg "FA004"
      || strContains msg "Login failed" || strContains msg "18456") = true := by
    rcases h with h | h | h | h <;> simp [h]
  simp [mapMssqlError, hcond]

/-- Witness for C6: a message holding a login-failure signature together with
a transient error code and a timeout pattern is still classified `Auth`. -/
theorem c6_auth_precedence_witness :
    (mapMssqlError "Login failed for user; service is busy; connection timeout"
      (some 40501) none).cls = DbErrClass.auth :=
  c6_auth_precedence _ _ _ (Or.inr (Or.inr (Or.inl (by decide))))

/-- The try/except in `_notify` swallows every observer exception: the
protected call always returns normally. -/
theorem notifyRun_never_raises (observer : Option (GatewayEvent → Except String Unit))
    (event : GatewayEvent) : notifyRun observer event = Except.ok () := by
  cases observer with
  | none => rfl
  | some cb =>
    simp only [notifyRun]
    cases cb event <;> rfl

/-- C7: for every underlying cursor outcome and every observer (including
one that raises on every call): the operation result is identical to the
result with no observer installed; exactly one event is emitted, whether the
statement succeeds or fails; and every emitted event that carries an error
message carries at most 200 characters of it. -/
theorem c7_observer_isolation (cursorResult : Except SqliteExc Int)
    (observer : Option (GatewayEvent → Except String Unit)) :
    (executeSqlite cursorResult observer).1 = (executeSqlite cursorResult none).1
    ∧ (executeSqlite cursorResult observer).2.length = 1
    ∧ (executeSqlite cursorResult observer).2.all eventMessageBounded = true := by
  cases cursorResult with
  | ok rc =>
    simp [executeSqlite, notifyRun_never_raises, eventMessageBounded]
  | error exc =>
    simp [executeSqlite, notifyRun_never_raises, eventMessageBounded, strTake_length_le]

/-- C8: `get_connection_string` returns a connection string exactly when an
unexpired token is cached under the descriptor key (leaving the cache
unchanged); with no cached entry it raises and leaves the cache unchanged;
with an expired cached entry it evicts that entry and raises.  The function
performs no authentication of its own: a successful return requires a
pre-existing valid cache entry. -/
theorem c8_connection_string_gate (cache : List (String × AuthToken)) (now : Int)
    (d : ConnectionDescriptor) :
    (∀ t, cache.lookup d.cacheKey = some t → t.isExpired now = false →
      getConnectionString cache now d
        = (.ok (buildConnectionStringWithToken d t), cache))
    ∧ (cache.lookup d.cacheKey = none →
      getConnectionString cache now d = (.error (noTokenMessage d.cacheKey), cache))
    ∧ (∀ t, cache.lookup d.cacheKey = some t → t.isExpired now = true →
      getConnectionString cache now d
        = (.error (noTokenMessage d.cacheKey),
           cache.filter (fun p => !(p.1 == d.cacheKey))))
    ∧ (∀ s cache', getConnectionString cache now d = (.ok s, cache') →
      cache' = cache ∧ ∃ t, cache.lookup d.cacheKey = some t ∧ t.isExpired now = false) := by
  refine ⟨?_, ?_, ?_, ?_⟩
  · intro t hl he
    simp [getConnectionString, hl, he]
  · intro hl
    simp [getConnectionString, hl]
  · intro t hl he
    simp [getConnectionString, hl, he]
  · intro s cache' h
    cases hl : cache.lookup d.cacheKey with
    | none =>
      simp [getConnectionString, hl] at h
    | some t =>
      cases he : t.isExpired now with
      | true =>
        simp [getConnectionString, hl, he] at h
      | false =>
        simp only [getConnectionString, hl, he, Bool.false_eq_true, if_false,
          Prod.mk.injEq, Except.ok.injEq] at h
        exact ⟨h.2.symm, t, rfl, he⟩

/-- Witness for C8: the three behaviours evaluated on a concrete descriptor
and token (expiring at 3600 s): fresh at t = 0, absent on an empty cache,
and evicted at t = 3300 s (inside the 5-minute buffer). -/
theorem c8_connection_string_gate_witness :
    getConnectionString [(descInteractive.cacheKey, tokenFresh)] 0 descInteractive
      = (.ok (buildConnectionStringWithToken descInteractive tokenFresh),
         [(descInteractive.cacheKey, tokenFresh)])
    ∧ getConnectionString [] 0 descInteractive
      = (.error (noTokenMessage descInteractive.cacheKey), [])
    ∧ getConnectionString [(descInteractive.cacheKey, tokenFresh)] 3300 descInteractive
      = (.error (noTokenMessage descInteractive.cacheKey),
         ([(descInteractive.cacheKey, tokenFresh)]).filter
           (fun p => !(p.1 == descInteractive.cacheKey))) :=
  ⟨(c8_connection_string_gate [(descInteractive.cacheKey, tokenFresh)] 0
      descInteractive).1 tokenFresh (by decide) (by decide),
   (c8_connection_string_gate [] 0 descInteractive).2.1 rfl,
   (c8_connection_string_gate [(descInteractive.cacheKey, tokenFresh)] 3300
      descInteractive).2.2.1 tokenFresh (by decide) (by decide)⟩

/-- Per-batch accounting for the background bridge: the number of scheduled
`on_error` callbacks equals the number of raising work items, the number of
scheduled `on_result` callbacks equals the number of normally-returning work
items, and overall exactly one callback is scheduled per work item. -/
theorem runBatch_counts {α ε : Type} (outcomes : List (Except ε α)) :
    (runBatch outcomes).countP isErrorCallback = outcomes.countP isErrorOutcome
    ∧ (runBatch outcomes).countP isResultCallback = outcomes.countP isOkOutcome
    ∧ (runBatch outcomes).length = outcomes.length := by
  induction outcomes with
  | nil => simp [runBatch]
  | cons o tl ih =>
    obtain ⟨ih1, ih2, ih3⟩ := ih
    have hcons : runBatch (o :: tl) = doneCallback true true o ++ runBatch tl := rfl
    cases o with
    | ok v =>
      refine ⟨?_, ?_, ?_⟩ <;>
        simp only [hcons, List.countP_append, List.length_append, ih1, ih2, ih3] <;>
        simp [doneCallback, isErrorOutcome, isOkOutcome, isErrorCallback,
          isResultCallback, List.countP_cons, Nat.add_comm]
    | error e =>
      refine ⟨?_, ?_, ?_⟩ <;>
        simp only [hcons, List.countP_append, List.length_append, ih1, ih2, ih3] <;>
        simp [doneCallback, isErrorOutcome, isOkOutcome, isErrorCallback,
          isResultCallback, List.countP_cons, Nat.add_comm]

/-- In any batch, every work item is counted either as raising or as
returning normally. -/
theorem countOutcomes_split {α ε : Type} (outcomes : List (Except ε α)) :
    outcomes.countP isErrorOutcome + outcomes.countP isOkOutcome = outcomes.length := by
  induction outcomes with
  | nil => simp
  | cons o tl ih =>
    cases o <;> simp [isErrorOutcome, isOkOutcome] <;> omega

/-- C9: the done-callback of `run_bg`, with both callbacks supplied,
schedules exactly one callback per work outcome — `on_result` with the
returned value on normal return, `on_error` with the raised exception on a
raise, never both and never neither; consequently a batch of 10 submissions
of which exactly one raises schedules exactly one `on_error` and nine
`on_result` invocations. -/
theorem c9_exactly_once_callbacks {α ε : Type} (outcomes : List (Except ε α)) :
    (∀ v : α, doneCallback true true (Except.ok v : Except ε α) = [ScheduledCallback.onResult v])
    ∧ (∀ e : ε, doneCallback true true (Except.error e : Except ε α)
        = [ScheduledCallback.onError e])
    ∧ (runBatch outcomes).length = outcomes.length
    ∧ (outcomes.length = 10 → outcomes.countP isErrorOutcome = 1 →
        (runBatch outcomes).countP isErrorCallback = 1
        ∧ (runBatch outcomes).countP isResultCallback = 9) := by
  obtain ⟨h1, h2, h3⟩ := runBatch_counts outcomes
  have hsplit := countOutcomes_split outcomes
  refine ⟨fun v => rfl, fun e => rfl, h3, ?_⟩
  intro hlen herr
  refine ⟨by rw [h1, herr], ?_⟩
  rw [h2]
  omega

/-- Witness for C9: a concrete batch of ten submissions where only the third
raises yields one scheduled `on_error` and nine scheduled `on_result`. -/
theorem c9_exactly_once_callbacks_witness :
    (runBatch outcomesTen).countP isErrorCallback = 1
    ∧ (runBatch outcomesTen).countP isResultCallback = 9 :=
  (c9_exactly_once_callbacks outcomesTen).2.2.2 (by decide) (by decide)

end CPD
